import Mathlib

/-!
Verification of the streaming event multiplexer of the WordPressAgent chat
client.  The definitions below are a shallow embedding of the code in
src/components/chat/ChatInterface.tsx (the handleSendMessage streaming loop,
its helpers handleStopGeneration / handleSubmit of ChatInput.tsx) and of
src/lib/artifacts/utils.ts (parseArtifactFromStream and friends).

Strings are modelled as lists of characters (type Str) so that every
operation is executable and decidable.  JavaScript runtime values produced by
JSON.parse are modelled by the inductive type Json; a missing property
(JavaScript undefined) is modelled by none at type Option Json.

Modelling conventions, applied uniformly:
* Date.now timestamps and Math.random id suffixes carry no information that
  any claim depends on; message ids are modelled as Nat supplied by the
  caller (the source derives them from Date.now), artifact/version ids are
  drawn from a counter in the state (idCtr), and AbortController instances
  are identified by a counter (ctr), with the set of aborted controllers
  recorded explicitly so that abort behaviour is observable.
* Date-valued fields (timestamp, createdAt, updatedAt) are omitted from the
  embedded structures: no claim mentions them.
* attachedFiles handling, authentication and the guest message limit are out
  of scope of the specified core (spec section 1) and are not modelled; the
  embedded handleSendMessage is the path with no attachments and the file
  content enhancement elided.
* JSON numbers are modelled as integers (the event payloads and artifact
  documents relevant to the claims contain no fractional literals) and the
  backslash-u string escape is not modelled; both restrictions only narrow
  the set of parseable concrete inputs used in witnesses.
-/

namespace WPA

/-- Str models a JavaScript string as its list of characters. -/
abbrev Str := List Char

/-- str converts a Lean string literal to the Str model. -/
def str (s : String) : Str := s.data

/-- isJsWs holds for the whitespace characters recognised by JSON and by the
JavaScript trim / regex whitespace class that matter here. -/
def isJsWs (c : Char) : Bool :=
  c = ' ' || c = '\t' || c = '\n' || c = '\r' || c = '\x0b' || c = '\x0c'

/-- trimStr models String.prototype.trim: strip leading and trailing
whitespace. -/
def trimStr (s : Str) : Str :=
  ((s.dropWhile isJsWs).reverse.dropWhile isJsWs).reverse

/-- findSub s p returns the index of the first occurrence of p as a
contiguous substring of s, if any. -/
def findSub : Str → Str → Option Nat
  | [], p => if p = [] then some 0 else none
  | c :: t, p =>
    if p.isPrefixOf (c :: t) then some 0
    else (findSub t p).map (· + 1)

/-- includesStr models the case-sensitive String.prototype.includes. -/
def includesStr (s p : Str) : Bool := (findSub s p).isSome

/-- toLowerStr lower-cases every character; used to model case-insensitive
regular expression matching. -/
def toLowerStr (s : Str) : Str := s.map Char.toLower

/-- findSubCI is substring search up to ASCII case, modelling the i flag of
the artifact regular expressions. -/
def findSubCI (s p : Str) : Option Nat := findSub (toLowerStr s) (toLowerStr p)

/-- Json models the values produced by JSON.parse (numbers restricted to
integers, see the header comment). -/
inductive Json where
  | null : Json
  | bool : Bool → Json
  | num : Int → Json
  | str : Str → Json
  | arr : List Json → Json
  | obj : List (Str × Json) → Json
deriving Repr

/-- getField models JavaScript property access on a parsed JSON value: none
is returned (undefined) when the value is not an object or lacks the key;
for duplicate keys JSON.parse keeps the last occurrence, hence the reverse
lookup. -/
def Json.getField (j : Json) (k : Str) : Option Json :=
  match j with
  | .obj fs => (fs.reverse.find? (fun p => decide (p.1 = k))).map (·.2)
  | _ => none

/-- jsTruthyV models JavaScript truthiness of a defined value. -/
def jsTruthyV : Json → Bool
  | .null => false
  | .bool b => b
  | .num n => decide (n ≠ 0)
  | .str s => decide (s ≠ [])
  | .arr _ => true
  | .obj _ => true

/-- jsTruthy models JavaScript truthiness of a possibly-undefined value. -/
def jsTruthy : Option Json → Bool
  | none => false
  | some v => jsTruthyV v

/-- jsStrictEq models the JavaScript strict equality of two possibly
undefined values as it behaves on the values that flow through the event
loop: primitives compare structurally, while two object or array values are
distinct references here (each is freshly parsed), hence unequal. -/
def jsStrictEq : Option Json → Option Json → Bool
  | none, none => true
  | some .null, some .null => true
  | some (.bool a), some (.bool b) => a = b
  | some (.num a), some (.num b) => a = b
  | some (.str a), some (.str b) => a = b
  | _, _ => false

/-- jsOrV models the JavaScript expression a OR b for a possibly undefined a
and a defined default b, as used in title fallbacks. -/
def jsOrV (a : Option Json) (b : Json) : Json :=
  match a with
  | some v => if jsTruthyV v then v else b
  | none => b

/-- natDigits renders a natural number in decimal. -/
def natDigits (n : Nat) : Str := Nat.toDigits 10 n

/-- jsToStrV models JavaScript string coercion of a defined value (as used
by string concatenation and template literals). -/
def jsToStrV : Json → Str
  | .null => str "null"
  | .bool true => str "true"
  | .bool false => str "false"
  | .num n => if n < 0 then '-' :: natDigits n.natAbs else natDigits n.natAbs
  | .str s => s
  | .arr xs => joinComma (xs.map elemStr)
  | .obj _ => str "[object Object]"
where
  /-- elemStr renders one array element, where null renders empty as in
  JavaScript Array.prototype.toString. -/
  elemStr : Json → Str
    | .null => []
    | .bool true => str "true"
    | .bool false => str "false"
    | .num n => if n < 0 then '-' :: natDigits n.natAbs else natDigits n.natAbs
    | .str s => s
    | .arr _ => []
    | .obj _ => str "[object Object]"
  /-- joinComma interposes commas between rendered elements. -/
  joinComma : List Str → Str
    | [] => []
    | [x] => x
    | x :: y :: t => x ++ ',' :: joinComma (y :: t)

/-- jsToStr extends string coercion to possibly-undefined values. -/
def jsToStr : Option Json → Str
  | none => str "undefined"
  | some v => jsToStrV v

/-- skipWs drops leading JSON whitespace. -/
def skipWs (s : Str) : Str := s.dropWhile isJsWs

/-- parseStrBody consumes the body of a JSON string literal after the
opening quote, decoding the common escapes, and returns the decoded
characters together with the input after the closing quote. -/
def parseStrBody : Nat → Str → Option (Str × Str)
  | 0, _ => none
  | _, [] => none
  | fuel + 1, c :: t =>
    if c = '"' then some ([], t)
    else if c = '\\' then
      match t with
      | [] => none
      | e :: t2 =>
        let dec : Option Char :=
          if e = '"' then some '"'
          else if e = '\\' then some '\\'
          else if e = '/' then some '/'
          else if e = 'n' then some '\n'
          else if e = 't' then some '\t'
          else if e = 'r' then some '\r'
          else if e = 'b' then some (Char.ofNat 8)
          else if e = 'f' then some (Char.ofNat 12)
          else none
        match dec with
        | some d => (parseStrBody fuel t2).map (fun p => (d :: p.1, p.2))
        | none => none
    else (parseStrBody fuel t).map (fun p => (c :: p.1, p.2))

/-- parseNum consumes an optionally signed decimal integer literal. -/
def parseNum (s : Str) : Option (Int × Str) :=
  let (neg, s1) : Bool × Str := match s with | '-' :: t => (true, t) | _ => (false, s)
  let ds := s1.takeWhile Char.isDigit
  if ds = [] then none
  else
    let n : Nat := ds.foldl (fun a c => a * 10 + (c.toNat - 48)) 0
    some (if neg then -(n : Int) else (n : Int), s1.drop ds.length)

mutual

/-- parseVal is the recursive-descent JSON value parser modelling
JSON.parse, fuelled for termination. -/
def parseVal : Nat → Str → Option (Json × Str)
  | 0, _ => none
  | fuel + 1, s =>
    match skipWs s with
    | [] => none
    | c :: t =>
      if c = '\x7b' then
        (parseObjFields fuel t true).map (fun p => (Json.obj p.1, p.2))
      else if c = '[' then
        (parseArrElems fuel t true).map (fun p => (Json.arr p.1, p.2))
      else if c = '"' then
        (parseStrBody (fuel + 1) t).map (fun p => (Json.str p.1, p.2))
      else if c = 't' then
        match t with
        | 'r' :: 'u' :: 'e' :: r => some (Json.bool true, r)
        | _ => none
      else if c = 'f' then
        match t with
        | 'a' :: 'l' :: 's' :: 'e' :: r => some (Json.bool false, r)
        | _ => none
      else if c = 'n' then
        match t with
        | 'u' :: 'l' :: 'l' :: r => some (Json.null, r)
        | _ => none
      else if c = '-' || c.isDigit then
        (parseNum (c :: t)).map (fun p => (Json.num p.1, p.2))
      else none

/-- parseArrElems parses the elements of an array after the opening bracket
(first is true) or after a comma (first is false). -/
def parseArrElems : Nat → Str → Bool → Option (List Json × Str)
  | 0, _, _ => none
  | fuel + 1, s, first =>
    match skipWs s with
    | ']' :: r => if first then some ([], r) else none
    | s1 =>
      match parseVal fuel s1 with
      | none => none
      | some (v, r1) =>
        match skipWs r1 with
        | ',' :: r2 => (parseArrElems fuel r2 false).map (fun p => (v :: p.1, p.2))
        | ']' :: r2 => some ([v], r2)
        | _ => none

/-- parseObjFields parses the members of an object after the opening brace
(first is true) or after a comma (first is false). -/
def parseObjFields : Nat → Str → Bool → Option (List (Str × Json) × Str)
  | 0, _, _ => none
  | fuel + 1, s, first =>
    match skipWs s with
    | '\x7d' :: r => if first then some ([], r) else none
    | '"' :: t =>
      match parseStrBody (fuel + 1) t with
      | none => none
      | some (k, r1) =>
        match skipWs r1 with
        | ':' :: r2 =>
          match parseVal fuel r2 with
          | none => none
          | some (v, r3) =>
            match skipWs r3 with
            | ',' :: r4 => (parseObjFields fuel r4 false).map (fun p => ((k, v) :: p.1, p.2))
            | '\x7d' :: r4 => some ([(k, v)], r4)
            | _ => none
        | _ => none
    | _ => none

end

/-- parse models JSON.parse: none is a thrown SyntaxError; trailing content
other than whitespace is rejected. -/
def Json.parse (s : Str) : Option Json :=
  match parseVal (2 * s.length + 4) s with
  | some (j, r) => if skipWs r = [] then some j else none
  | none => none

/-!
Models of the artifact regular expressions of utils.ts and
ChatInterface.tsx.  The tag-extraction regex is
slash artifact-open (optional whitespace-plus type equals quoted value)
(optional whitespace-plus title equals quoted value) whitespace-star
greater-than, lazy body, artifact-close, with the g and i flags; exec
returns the first match.  ci selects case-insensitive literal matching.
-/

/-- matchLit matches a literal at the head of the input (case-insensitively
when ci is set) and returns the rest. -/
def matchLit (ci : Bool) (lit s : Str) : Option Str :=
  if ci then
    if toLowerStr (s.take lit.length) = toLowerStr lit then some (s.drop lit.length) else none
  else
    if s.take lit.length = lit then some (s.drop lit.length) else none

/-- parseAttrGen parses one optional attribute group of the artifact tag
regex: whitespace-plus, the key name, equals, a quoted nonempty value.
Returns the captured value and the rest of the input. -/
def parseAttrGen (ci : Bool) (key : Str) (s : Str) : Option (Str × Str) :=
  let ws := s.takeWhile isJsWs
  if ws = [] then none
  else
    match matchLit ci (key ++ '=' :: '"' :: []) (s.drop ws.length) with
    | none => none
    | some s2 =>
      let v := s2.takeWhile (fun c => !(c = '"'))
      if v = [] then none
      else
        match s2.drop v.length with
        | '"' :: s3 => some (v, s3)
        | _ => none

/-- tagTail parses the tail of the tag regex after the optional attribute
groups: whitespace-star, the closing angle bracket, then the lazy body up to
the first case-insensitive artifact end tag.  Returns the body and the input
after the end tag. -/
def tagTail (rest : Str) : Option (Str × Str) :=
  match rest.dropWhile isJsWs with
  | '>' :: rr =>
    match findSubCI rr (str "</artifact>") with
    | some k => some (rr.take k, rr.drop (k + 11))
    | none => none
  | _ => none

/-- attemptTag tries to complete a tag match directly after an occurrence of
the artifact open literal, following the backtracking order of the two
greedy optional groups: both attributes, type only, title only, neither. -/
def attemptTag (ci : Bool) (rest : Str) : Option (Option Str × Option Str × Str × Str) :=
  (match parseAttrGen ci (str "type") rest with
   | some (tv, r1) =>
     (match parseAttrGen ci (str "title") r1 with
      | some (iv, r2) => (tagTail r2).map (fun p => (some tv, some iv, p.1, p.2))
      | none => none) <|>
     (tagTail r1).map (fun p => (some tv, none, p.1, p.2))
   | none => none) <|>
  (match parseAttrGen ci (str "title") rest with
   | some (iv, r1) => (tagTail r1).map (fun p => (none, some iv, p.1, p.2))
   | none => none) <|>
  (tagTail rest).map (fun p => (none, none, p.1, p.2))

/-- tagExecAux scans for the first position at which the whole tag regex
matches: at each case-insensitive occurrence of the artifact open literal it
attempts the continuation, advancing on failure as the regex engine does. -/
def tagExecAux : Nat → Str → Option (Option Str × Option Str × Str)
  | 0, _ => none
  | fuel + 1, s =>
    match findSubCI s (str "<artifact") with
    | none => none
    | some i =>
      match attemptTag true (s.drop (i + 9)) with
      | some (ty, ti, inner, _) => some (ty, ti, inner)
      | none => tagExecAux fuel (s.drop (i + 1))

/-- artifactTagExec models exec of the artifact tag regex on the content,
returning the captured type group, title group and tag body of the first
match. -/
def artifactTagExec (s : Str) : Option (Option Str × Option Str × Str) :=
  tagExecAux (s.length + 1) s

/-- stripSpansAux removes every complete artifact-open to artifact-close
span, modelling replace of the lazy spanning regex with the g and i flags by
the empty string. -/
def stripSpansAux : Nat → Str → Str
  | 0, s => s
  | fuel + 1, s =>
    match findSubCI s (str "<artifact") with
    | none => s
    | some i =>
      let rest := s.drop (i + 9)
      match findSubCI rest (str "</artifact>") with
      | none => s
      | some k => s.take i ++ stripSpansAux fuel (rest.drop (k + 11))

/-- stripTaggedSpans is the fuelled entry point of stripSpansAux. -/
def stripTaggedSpans (s : Str) : Str := stripSpansAux (s.length + 1) s

/-- stripFromStartCI models replace of artifact-open followed by anything to
the end of input (case-insensitive) by the empty string: the displayed text
is cut at the first occurrence of the open literal. -/
def stripFromStartCI (s : Str) : Str :=
  match findSubCI s (str "<artifact") with
  | none => s
  | some i => s.take i

/-- attemptGroupsOnly captures the two optional attribute groups with no
required continuation, as in the loading-artifact match regex. -/
def attemptGroupsOnly (ci : Bool) (rest : Str) : Option Str × Option Str :=
  match parseAttrGen ci (str "type") rest with
  | some (tv, r1) =>
    match parseAttrGen ci (str "title") r1 with
    | some (iv, _) => (some tv, some iv)
    | none => (some tv, none)
  | none =>
    match parseAttrGen ci (str "title") rest with
    | some (iv, _) => (none, some iv)
    | none => (none, none)

/-- loadingMatch models the case-sensitive match used to seed the loading
artifact placeholder: it matches at the first literal occurrence of the
artifact open tag and captures the optional type and title groups. -/
def loadingMatch (s : Str) : Option Str × Option Str :=
  match findSub s (str "<artifact") with
  | none => (none, none)
  | some i => attemptGroupsOnly false (s.drop (i + 9))

/-- ParsedArtifact is the return shape of parseArtifactFromStream: each
field is a JavaScript value, with none standing for an absent property. -/
structure ParsedArtifact where
  type : Option Json
  title : Option Json
  data : Option Json

/-- nullPA is the object with type null and no title or data, returned on
every failure path of parseArtifactFromStream. -/
def nullPA : ParsedArtifact := { type := some Json.null, title := none, data := none }

/-- startsLBrace tests whether a string starts with an opening brace, as in
the untagged-JSON detection of parseArtifactFromStream. -/
def startsLBrace : Str → Bool
  | c :: _ => c = '\x7b'
  | [] => false

/-- parseArtifactFromStream embeds the function of the same name from
src/lib/artifacts/utils.ts: extract the first complete artifact tag span and
parse its body according to the declared type, or recognise bare untagged
workflow JSON; every failure yields the type-null object. -/
def parseArtifactFromStream (content : Str) : ParsedArtifact :=
  match artifactTagExec content with
  | none =>
    if startsLBrace (trimStr content) && includesStr content (str "\"nodes\"") then
      match Json.parse (trimStr content) with
      | some workflowData =>
        { type := some (Json.str (str "workflow")),
          title := some (jsOrV (workflowData.getField (str "name")) (Json.str (str "Generated Workflow"))),
          data := some workflowData }
      | none => nullPA
    else nullPA
  | some (ty, ti, artifactContent) =>
    match ty with
    | none => nullPA
    | some t =>
      if t = str "workflow" then
        match Json.parse (trimStr artifactContent) with
        | some workflowData =>
          { type := some (Json.str (str "workflow")),
            title := some (jsOrV (ti.map Json.str)
              (jsOrV (workflowData.getField (str "name")) (Json.str (str "Generated Workflow")))),
            data := some workflowData }
        | none => nullPA
      else if t = str "document" then
        { type := some (Json.str (str "document")),
          title := some (jsOrV (ti.map Json.str) (Json.str (str "Generated Document"))),
          data := some (Json.str artifactContent) }
      else if t = str "code" then
        { type := some (Json.str (str "code")),
          title := some (jsOrV (ti.map Json.str) (Json.str (str "Generated Code"))),
          data := some (Json.str artifactContent) }
      else if t = str "svg" then
        { type := some (Json.str (str "svg")),
          title := some (jsOrV (ti.map Json.str) (Json.str (str "Generated Diagram"))),
          data := some (Json.str artifactContent) }
      else nullPA

/-!
The transcript state machine of ChatInterface.tsx.  A Message is one turn of
the transcript; ChatState is the React state owned by the component;
SessionState adds the local variables of one handleSendMessage invocation
(accumulatedContent, assistantMessageCreated, assistantMessageId, and the
AbortController created for the request).
-/

/-- Role is the role field of a Message. -/
inductive Role where
  | user : Role
  | assistant : Role
deriving DecidableEq, Repr

/-- ToolCall embeds the ToolCall interface: the id, name and args fields are
whatever JavaScript values the tool_call event carried. -/
structure ToolCall where
  id : Option Json
  name : Option Json
  args : Option Json
  result : Option Json
  isLoading : Bool
deriving Repr

/-- ArtifactVersionD embeds ArtifactVersion (Date field omitted, ids drawn
from the idCtr counter). -/
structure ArtifactVersionD where
  id : Nat
  content : Option Json
  title : Option Json
deriving Repr

/-- ArtifactData embeds the ArtifactData interface of ArtifactContainer
(Date fields omitted). -/
structure ArtifactData where
  id : Nat
  type : Option Json
  title : Option Json
  description : Str
  currentVersion : ArtifactVersionD
  versions : List ArtifactVersionD
deriving Repr

/-- Message embeds the Message interface of ChatInterface.tsx: a flat
content string, an optional toolCalls list and an optional artifact
(attachedFiles omitted, Date field omitted). -/
structure Message where
  id : Nat
  content : Str
  role : Role
  toolCalls : Option (List ToolCall)
  artifact : Option ArtifactData
deriving Repr

/-- ChatState is the React state of ChatInterface relevant to the claims.
ctr numbers AbortController allocations, aborted records the controllers
whose abort method has been called, idCtr numbers artifact and version id
allocations. -/
structure ChatState where
  messages : List Message
  isLoading : Bool
  isStreaming : Bool
  abortController : Option Nat
  aborted : List Nat
  ctr : Nat
  idCtr : Nat
  currentArtifact : Option ArtifactData
  isArtifactVisible : Bool
deriving Repr

/-- SessionState is one in-flight handleSendMessage invocation: the shared
chat state together with the local stream-loop variables. -/
structure SessionState where
  chat : ChatState
  accumulatedContent : Str
  assistantMessageCreated : Bool
  assistantMessageId : Nat
  ctrl : Nat
deriving Repr

/-- updAsst models the setMessages map that rewrites the message whose id
equals the assistant message id and keeps every other message. -/
def updAsst (ms : List Message) (aid : Nat) (f : Message → Message) : List Message :=
  ms.map (fun m => if m.id = aid then f m else m)

/-- mkFullArtifact builds the fullArtifactData object of the complete-artifact
branch: a brand-new artifact (fresh id n) holding exactly one version (fresh
id n + 1) whose content is the parsed data. -/
def mkFullArtifact (pa : ParsedArtifact) (n : Nat) : ArtifactData :=
  let version : ArtifactVersionD :=
    { id := n + 1, content := pa.data, title := some (jsOrV pa.title (Json.str (str "Version 1"))) }
  { id := n,
    type := pa.type,
    title := some (jsOrV pa.title (Json.str (str "Generated Workflow"))),
    description := str "Generated " ++ jsToStr pa.type ++ str " artifact",
    currentVersion := version,
    versions := [version] }

/-- mkLoadingArtifact builds the loading placeholder artifact created when a
start tag is seen with no end tag and the artifact panel is not yet
visible. -/
def mkLoadingArtifact (ty ti : Option Str) (n : Nat) : ArtifactData :=
  { id := n,
    type := some (match ty with | some t => Json.str t | none => Json.str (str "workflow")),
    title := some (match ti with | some t => Json.str t | none => Json.str (str "Generating Workflow...")),
    description := str "Workflow is being generated, please wait...",
    currentVersion :=
      { id := n + 1,
        content := some (Json.obj
          [(str "name", match ti with | some t => Json.str t | none => Json.str (str "Loading...")),
           (str "nodes", Json.arr []),
           (str "connections", Json.obj []),
           (str "active", Json.bool false)]),
        title := some (Json.str (str "Loading...")) },
    versions := [] }

/-- tokenStep embeds the token branch of the event loop: append the coerced
content to accumulatedContent, create or update the assistant message, then
run the artifact extraction logic on the accumulated text. -/
def tokenStep (ss : SessionState) (c : Str) : SessionState :=
  let acc2 := ss.accumulatedContent ++ c
  let st1 : ChatState :=
    if ss.assistantMessageCreated then
      { ss.chat with
        messages := updAsst ss.chat.messages ss.assistantMessageId (fun m => { m with content := acc2 }) }
    else
      { ss.chat with
        messages := ss.chat.messages ++
          [{ id := ss.assistantMessageId, content := acc2, role := Role.assistant,
             toolCalls := none, artifact := none }],
        isLoading := false }
  if includesStr acc2 (str "</artifact>") then
    let pa := parseArtifactFromStream acc2
    if jsTruthy pa.type && jsTruthy pa.data then
      let full := mkFullArtifact pa st1.idCtr
      let cleanContent := trimStr (stripTaggedSpans acc2)
      { chat :=
          { st1 with
            messages := updAsst st1.messages ss.assistantMessageId
              (fun m => { m with content := cleanContent, artifact := some full }),
            isArtifactVisible := true,
            currentArtifact := some full,
            idCtr := st1.idCtr + 2 },
        accumulatedContent := acc2,
        assistantMessageCreated := true,
        assistantMessageId := ss.assistantMessageId,
        ctrl := ss.ctrl }
    else
      { chat := st1, accumulatedContent := acc2, assistantMessageCreated := true,
        assistantMessageId := ss.assistantMessageId, ctrl := ss.ctrl }
  else
    if includesStr acc2 (str "<artifact") then
      let displayContent := trimStr (stripFromStartCI acc2)
      let st2 : ChatState :=
        if st1.isArtifactVisible then st1
        else
          let g := loadingMatch acc2
          { st1 with
            isArtifactVisible := true,
            currentArtifact := some (mkLoadingArtifact g.1 g.2 st1.idCtr),
            idCtr := st1.idCtr + 2 }
      { chat :=
          { st2 with
            messages := updAsst st2.messages ss.assistantMessageId
              (fun m => { m with content := displayContent }) },
        accumulatedContent := acc2, assistantMessageCreated := true,
        assistantMessageId := ss.assistantMessageId, ctrl := ss.ctrl }
    else
      { chat :=
          { st1 with
            messages := updAsst st1.messages ss.assistantMessageId
              (fun m => { m with content := acc2 }) },
        accumulatedContent := acc2, assistantMessageCreated := true,
        assistantMessageId := ss.assistantMessageId, ctrl := ss.ctrl }

/-- mkToolCall builds the pending ToolCall object from a tool_call event. -/
def mkToolCall (j : Json) : ToolCall :=
  { id := j.getField (str "id"), name := j.getField (str "name"),
    args := j.getField (str "args"), result := none, isLoading := true }

/-- toolCallStep embeds the tool_call branch: create the assistant message
holding the new pending tool call, or append the call to the existing
message. -/
def toolCallStep (ss : SessionState) (j : Json) : SessionState :=
  let tc : ToolCall := mkToolCall j
  if ss.assistantMessageCreated then
    { ss with
      chat := { ss.chat with
        messages := updAsst ss.chat.messages ss.assistantMessageId
          (fun m => { m with toolCalls := some ((m.toolCalls.getD []) ++ [tc]) }) } }
  else
    { ss with
      chat := { ss.chat with
        messages := ss.chat.messages ++
          [{ id := ss.assistantMessageId, content := [], role := Role.assistant,
             toolCalls := some [tc], artifact := none }],
        isLoading := false },
      assistantMessageCreated := true }

/-- resUpd is the per-tool update of the tool_result branch: a tool whose
name strictly equals the event name receives the result content and is
marked not loading, any other tool is unchanged. -/
def resUpd (nm cv : Option Json) (tool : ToolCall) : ToolCall :=
  if jsStrictEq tool.name nm then { tool with result := cv, isLoading := false } else tool

/-- toolResultStep embeds the tool_result branch: on the assistant message,
every tool call whose name strictly equals the event name receives the
result content and is marked not loading. -/
def toolResultStep (ss : SessionState) (j : Json) : SessionState :=
  { ss with
    chat := { ss.chat with
      messages := updAsst ss.chat.messages ss.assistantMessageId (fun m =>
        { m with toolCalls := m.toolCalls.map (fun ts =>
            ts.map (resUpd (j.getField (str "name")) (j.getField (str "content")))) }) } }

/-- completeStep embeds the complete branch: clear the flags and the
controller and return from the handler. -/
def completeStep (ss : SessionState) : SessionState :=
  { ss with chat := { ss.chat with
      isLoading := false, isStreaming := false, abortController := none } }

/-- errorStep embeds the error branch: surface the error text as the
assistant message content (creating the message if needed), clear the flags
and return. -/
def errorStep (ss : SessionState) (j : Json) : SessionState :=
  let txt := str "Error: " ++
    (if jsTruthy (j.getField (str "content")) then jsToStrV ((j.getField (str "content")).getD Json.null)
     else str "Failed to generate workflow")
  let st1 : ChatState :=
    if ss.assistantMessageCreated then
      { ss.chat with
        messages := updAsst ss.chat.messages ss.assistantMessageId (fun m => { m with content := txt }) }
    else
      { ss.chat with
        messages := ss.chat.messages ++
          [{ id := ss.assistantMessageId, content := txt, role := Role.assistant,
             toolCalls := none, artifact := none }] }
  { ss with chat := { st1 with
      isLoading := false, isStreaming := false, abortController := none } }

/-- processEvent dispatches one parsed event record through the if chain of
the stream loop; the Bool is true when the handler returns (complete or
error). -/
def processEvent (ss : SessionState) (j : Json) : SessionState × Bool :=
  let ty := j.getField (str "type")
  if jsStrictEq ty (some (Json.str (str "tool_call"))) then
    (toolCallStep ss j, false)
  else if jsStrictEq ty (some (Json.str (str "tool_result"))) then
    (toolResultStep ss j, false)
  else if jsStrictEq ty (some (Json.str (str "token"))) && jsTruthy (j.getField (str "content")) then
    (tokenStep ss (jsToStr (j.getField (str "content"))), false)
  else if jsStrictEq ty (some (Json.str (str "complete"))) then
    (completeStep ss, true)
  else if jsStrictEq ty (some (Json.str (str "error"))) then
    (errorStep ss j, true)
  else
    (ss, false)

/-- processEvents folds processEvent over a list of parsed records, stopping
when a record returns from the handler. -/
def processEvents : SessionState → List Json → SessionState
  | ss, [] => ss
  | ss, j :: js =>
    let r := processEvent ss j
    if r.2 then r.1 else processEvents r.1 js

/-- processLine embeds the per-line handling of the read loop: only lines
with the data prefix are considered, empty payloads are skipped, a payload
that fails to parse is logged and skipped (the catch around JSON.parse), and
a parsed payload is dispatched. -/
def processLine (ss : SessionState) (line : Str) : SessionState × Bool :=
  if (str "data: ").isPrefixOf line then
    let jsonStr := trimStr (line.drop 6)
    if jsonStr = [] then (ss, false)
    else
      match Json.parse jsonStr with
      | none => (ss, false)
      | some j => processEvent ss j
  else (ss, false)

/-- processLines folds processLine over decoded lines, stopping when a
record returns from the handler. -/
def processLines : SessionState → List Str → SessionState
  | ss, [] => ss
  | ss, l :: ls =>
    let r := processLine ss l
    if r.2 then r.1 else processLines r.1 ls

/-- sendStart embeds the prelude of handleSendMessage on the no-attachments
path: return early when the trimmed content is empty, otherwise append the
user message, set the flags, and create a fresh AbortController without
aborting any previous one.  base models Date.now for the two message ids. -/
def sendStart (s : ChatState) (content : Str) (base : Nat) : Option SessionState :=
  if trimStr content = [] then none
  else
    some
      { chat :=
          { s with
            messages := s.messages ++
              [{ id := base, content := trimStr content, role := Role.user,
                 toolCalls := none, artifact := none }],
            isLoading := true,
            isStreaming := true,
            abortController := some s.ctr,
            ctr := s.ctr + 1 },
        accumulatedContent := [],
        assistantMessageCreated := false,
        assistantMessageId := base + 1,
        ctrl := s.ctr }

/-- handleSubmit embeds the submit guard of ChatInput: a send is only
forwarded when the trimmed message is nonempty and neither isLoading nor
isStreaming is set. -/
def handleSubmit (s : ChatState) (content : Str) (base : Nat) : ChatState :=
  if trimStr content ≠ [] ∧ s.isLoading = false ∧ s.isStreaming = false then
    match sendStart s content base with
    | some ss => ss.chat
    | none => s
  else s

/-- handleStopGeneration embeds the stop handler: abort the current
controller if any, drop it, and clear the flags. -/
def handleStopGeneration (s : ChatState) : ChatState :=
  match s.abortController with
  | some c =>
    { s with
      abortController := none,
      aborted := c :: s.aborted,
      isLoading := false,
      isStreaming := false }
  | none => { s with isLoading := false, isStreaming := false }

/-- abortCatch embeds the AbortError catch branch of handleSendMessage: when
no assistant message was created yet an empty assistant message is appended,
otherwise the message is mapped onto itself; then the flags and controller
are cleared. -/
def abortCatch (ss : SessionState) : ChatState :=
  let s1 : ChatState :=
    if ss.assistantMessageCreated then
      { ss.chat with
        messages := updAsst ss.chat.messages ss.assistantMessageId (fun m => m) }
    else
      { ss.chat with
        messages := ss.chat.messages ++
          [{ id := ss.assistantMessageId, content := [], role := Role.assistant,
             toolCalls := none, artifact := none }] }
  { s1 with isLoading := false, isStreaming := false, abortController := none }

/-- cancelBeforeEvents models the empty-cancellation scenario: the user
sends a message and presses stop before any stream record is processed, so
the read rejects with AbortError and the catch branch runs. -/
def cancelBeforeEvents (s : ChatState) (content : Str) (base : Nat) : ChatState :=
  match sendStart s content base with
  | none => s
  | some ss => abortCatch { ss with chat := handleStopGeneration ss.chat }

/-- chatInit is the initial chat state of a fresh conversation. -/
def chatInit : ChatState :=
  { messages := [], isLoading := false, isStreaming := false, abortController := none,
    aborted := [], ctr := 0, idCtr := 0, currentArtifact := none, isArtifactVisible := false }

/-- user0 is the user message of the reference session sess0. -/
def user0 : Message :=
  { id := 0, content := str "q", role := Role.user, toolCalls := none, artifact := none }

/-- sess0 is the session right after a fresh send of the one-character
message on a fresh chat, with base 0; equal to the result of sendStart
chatInit (see sendStart_chatInit). -/
def sess0 : SessionState :=
  { chat :=
      { messages := [user0], isLoading := true, isStreaming := true,
        abortController := some 0, aborted := [], ctr := 1, idCtr := 0,
        currentArtifact := none, isArtifactVisible := false },
    accumulatedContent := [],
    assistantMessageCreated := false,
    assistantMessageId := 1,
    ctrl := 0 }

/-- sendStart_chatInit checks that sess0 is the session produced by a fresh
send on a fresh chat. -/
theorem sendStart_chatInit : sendStart chatInit (str "q") 0 = some sess0 := by
  rfl

/-- tokenEvent is the parsed form of a token record carrying content c. -/
def tokenEvent (c : Str) : Json :=
  Json.obj [(str "type", Json.str (str "token")), (str "content", Json.str c)]

/-- toolCallEvent is the parsed form of a tool_call record with string id
and name and empty args object. -/
def toolCallEvent (i n : Str) : Json :=
  Json.obj [(str "type", Json.str (str "tool_call")), (str "id", Json.str i),
            (str "name", Json.str n), (str "args", Json.obj [])]

/-- toolResultEvent is the parsed form of a tool_result record with string
name and content. -/
def toolResultEvent (n c : Str) : Json :=
  Json.obj [(str "type", Json.str (str "tool_result")), (str "name", Json.str n),
            (str "content", Json.str c)]

/-- plainAsst is an assistant message holding only text. -/
def plainAsst (aid : Nat) (c : Str) : Message :=
  { id := aid, content := c, role := Role.assistant, toolCalls := none, artifact := none }

/-!
Supporting lemmas: substring search versus the infix order, the noTag
predicate ruling artifact markup out of a text, and the behaviour of the
assistant-message map on a transcript whose last message is the assistant
message.
-/

/-- findSub succeeds exactly on infix occurrences. -/
theorem findSub_isSome_iff (s p : Str) : (findSub s p).isSome = true ↔ p <:+: s := by
  induction s with
  | nil =>
    simp only [findSub]
    by_cases hp : p = []
    · subst hp
      simp
    · simp [hp, List.infix_nil]
  | cons c t ih =>
    simp only [findSub]
    by_cases hpre : p.isPrefixOf (c :: t)
    · simp only [hpre, if_true, Option.isSome_some, true_iff]
      exact (List.isPrefixOf_iff_prefix.mp hpre).isInfix
    · simp only [hpre, Bool.false_eq_true, if_false]
      rw [show (Option.map (fun x => x + 1) (findSub t p)).isSome = (findSub t p).isSome from by
            cases findSub t p <;> rfl]
      rw [ih, List.infix_cons_iff]
      constructor
      · exact Or.inr
      · rintro (h | h)
        · exact absurd (List.isPrefixOf_iff_prefix.mpr h) hpre
        · exact h

/-- includesStr is the Bool form of the infix order. -/
theorem includesStr_iff (s p : Str) : includesStr s p = true ↔ p <:+: s := by
  unfold includesStr
  exact findSub_isSome_iff s p

/-- noTag s states that the text s contains neither the artifact open
literal nor the artifact close literal, in any letter case. -/
def noTag (s : Str) : Prop :=
  ¬ (str "<artifact") <:+: toLowerStr s ∧ ¬ (str "</artifact>") <:+: toLowerStr s

instance (s : Str) : Decidable (noTag s) := by
  unfold noTag
  infer_instance

/-- A case-sensitive occurrence of a lower-case literal gives a case-blind
occurrence, so noTag refutes both includes tests of the token branch. -/
theorem noTag_includes (s : Str) (h : noTag s) :
    includesStr s (str "</artifact>") = false ∧ includesStr s (str "<artifact") = false := by
  constructor
  · by_contra hb
    have h1 : includesStr s (str "</artifact>") = true := by
      cases hq : includesStr s (str "</artifact>") with
      | false => exact absurd hq hb
      | true => rfl
    have h2 : (str "</artifact>") <:+: s := (includesStr_iff s _).mp h1
    have h3 : toLowerStr (str "</artifact>") <:+: toLowerStr s := h2.map Char.toLower
    have h4 : toLowerStr (str "</artifact>") = str "</artifact>" := by decide
    exact h.2 (h4 ▸ h3)
  · by_contra hb
    have h1 : includesStr s (str "<artifact") = true := by
      cases hq : includesStr s (str "<artifact") with
      | false => exact absurd hq hb
      | true => rfl
    have h2 : (str "<artifact") <:+: s := (includesStr_iff s _).mp h1
    have h3 : toLowerStr (str "<artifact") <:+: toLowerStr s := h2.map Char.toLower
    have h4 : toLowerStr (str "<artifact") = str "<artifact" := by decide
    exact h.1 (h4 ▸ h3)

/-- noTag restricts to prefixes. -/
theorem noTag_of_prefix {p s : Str} (hp : p <+: s) (hs : noTag s) : noTag p := by
  refine ⟨fun hb => hs.1 ?_, fun hb => hs.2 ?_⟩
  · exact hb.trans (hp.map Char.toLower).isInfix
  · exact hb.trans (hp.map Char.toLower).isInfix

/-- updAsst leaves a transcript of foreign ids unchanged and rewrites the
one appended assistant message. -/
theorem updAsst_append_fresh (M0 : List Message) (m : Message) (aid : Nat)
    (f : Message → Message) (hM : ∀ x ∈ M0, x.id ≠ aid) (hm : m.id = aid) :
    updAsst (M0 ++ [m]) aid f = M0 ++ [f m] := by
  unfold updAsst
  rw [List.map_append]
  congr 1
  · have hcong : ∀ x ∈ M0, (fun x => if x.id = aid then f x else x) x = id x := by
      intro x hx
      simp [hM x hx]
    rw [List.map_congr_left hcong, List.map_id]
  · simp [hm]

/-- processEvent routes a token record to tokenStep, or skips it entirely
when the content is empty (the truthiness guard of the token branch). -/
theorem processEvent_tokenEvent (ss : SessionState) (c : Str) :
    processEvent ss (tokenEvent c) = (if c = [] then ss else tokenStep ss c, false) := by
  cases c with
  | nil => rfl
  | cons x t => rfl

/-- processEvent routes a tool_call record to toolCallStep. -/
theorem processEvent_toolCallEvent (ss : SessionState) (i n : Str) :
    processEvent ss (toolCallEvent i n) = (toolCallStep ss (toolCallEvent i n), false) := rfl

/-- processEvent routes a tool_result record to toolResultStep. -/
theorem processEvent_toolResultEvent (ss : SessionState) (n c : Str) :
    processEvent ss (toolResultEvent n c) = (toolResultStep ss (toolResultEvent n c), false) := rfl

/-- The name field of a tool_result event record. -/
theorem toolResultEvent_name (n c : Str) :
    (toolResultEvent n c).getField (str "name") = some (Json.str n) := rfl

/-- The content field of a tool_result event record. -/
theorem toolResultEvent_content (n c : Str) :
    (toolResultEvent n c).getField (str "content") = some (Json.str c) := rfl

/-- processEvents on an empty record list is the identity. -/
theorem processEvents_nil (ss : SessionState) : processEvents ss [] = ss := rfl

/-- processEvents steps through the head record. -/
theorem processEvents_cons (ss : SessionState) (j : Json) (js : List Json) :
    processEvents ss (j :: js) =
      (if (processEvent ss j).2 then (processEvent ss j).1
       else processEvents (processEvent ss j).1 js) := rfl

/-- tokenStep on text free of artifact markup, before the assistant message
exists: the assistant message is appended holding the accumulated text. -/
theorem tokenStep_clean_fresh (ss : SessionState) (c : Str) (M0 : List Message)
    (h : noTag (ss.accumulatedContent ++ c))
    (hcr : ss.assistantMessageCreated = false)
    (h3 : ss.chat.messages = M0)
    (hfresh : ∀ x ∈ M0, x.id ≠ ss.assistantMessageId) :
    tokenStep ss c =
      { chat := { ss.chat with
          messages := M0 ++ [plainAsst ss.assistantMessageId (ss.accumulatedContent ++ c)],
          isLoading := false },
        accumulatedContent := ss.accumulatedContent ++ c,
        assistantMessageCreated := true,
        assistantMessageId := ss.assistantMessageId,
        ctrl := ss.ctrl } := by
  have hI := noTag_includes (ss.accumulatedContent ++ c) h
  unfold tokenStep
  rw [hcr]
  simp only [Bool.false_eq_true, if_false, hI.1, hI.2]
  rw [h3]
  rw [updAsst_append_fresh M0 _ ss.assistantMessageId _ hfresh rfl]
  rfl

/-- tokenStep on text free of artifact markup, once the assistant message is
the last message of the transcript: only its content is rewritten to the new
accumulated text. -/
theorem tokenStep_clean_created (ss : SessionState) (c : Str) (M0 : List Message) (m : Message)
    (h : noTag (ss.accumulatedContent ++ c))
    (hcr : ss.assistantMessageCreated = true)
    (h3 : ss.chat.messages = M0 ++ [m])
    (hm : m.id = ss.assistantMessageId)
    (hfresh : ∀ x ∈ M0, x.id ≠ ss.assistantMessageId) :
    tokenStep ss c =
      { chat := { ss.chat with
          messages := M0 ++ [{ m with content := ss.accumulatedContent ++ c }] },
        accumulatedContent := ss.accumulatedContent ++ c,
        assistantMessageCreated := true,
        assistantMessageId := ss.assistantMessageId,
        ctrl := ss.ctrl } := by
  have hI := noTag_includes (ss.accumulatedContent ++ c) h
  unfold tokenStep
  rw [hcr]
  simp only [if_true, Bool.false_eq_true, if_false, hI.1, hI.2]
  rw [h3]
  rw [updAsst_append_fresh M0 m ss.assistantMessageId _ hfresh hm]
  rw [updAsst_append_fresh M0 { m with content := ss.accumulatedContent ++ c }
        ss.assistantMessageId _ hfresh hm]

/-- toolCallStep once the assistant message is the last message of the
transcript: the new pending call is appended to its toolCalls. -/
theorem toolCallStep_created (ss : SessionState) (j : Json) (M0 : List Message) (m : Message)
    (hcr : ss.assistantMessageCreated = true)
    (h3 : ss.chat.messages = M0 ++ [m])
    (hm : m.id = ss.assistantMessageId)
    (hfresh : ∀ x ∈ M0, x.id ≠ ss.assistantMessageId) :
    toolCallStep ss j =
      { ss with chat := { ss.chat with
          messages := M0 ++
            [{ m with toolCalls := some ((m.toolCalls.getD []) ++ [mkToolCall j]) }] } } := by
  unfold toolCallStep
  rw [hcr]
  simp only [if_true]
  rw [h3]
  rw [updAsst_append_fresh M0 m ss.assistantMessageId _ hfresh hm]

/-- toolResultStep when the assistant message is the last message of the
transcript: every tool call of that message is rewritten through resUpd with
the event name and content, and every other message is untouched. -/
theorem toolResultStep_shape (ss : SessionState) (j : Json) (M0 : List Message) (m : Message)
    (h3 : ss.chat.messages = M0 ++ [m])
    (hm : m.id = ss.assistantMessageId)
    (hfresh : ∀ x ∈ M0, x.id ≠ ss.assistantMessageId) :
    toolResultStep ss j =
      { ss with chat := { ss.chat with
          messages := M0 ++
            [{ m with toolCalls := m.toolCalls.map (fun ts =>
                ts.map (resUpd (j.getField (str "name")) (j.getField (str "content")))) }] } } := by
  unfold toolResultStep
  rw [h3]
  rw [updAsst_append_fresh M0 m ss.assistantMessageId _ hfresh hm]

/-- processEvents_tokens: running any list of token records whose joined
content is free of artifact markup keeps the transcript in the
one-assistant-message shape, with the accumulated text equal to the previous
text followed by the joined contents. -/
theorem processEvents_tokens (cs : List Str) :
    ∀ (ss : SessionState) (M0 : List Message),
    (∀ x ∈ M0, x.id ≠ ss.assistantMessageId) →
    ((ss.assistantMessageCreated = false ∧ ss.accumulatedContent = [] ∧ ss.chat.messages = M0) ∨
     (ss.assistantMessageCreated = true ∧
       ss.chat.messages = M0 ++ [plainAsst ss.assistantMessageId ss.accumulatedContent])) →
    noTag (ss.accumulatedContent ++ cs.flatten) →
    (processEvents ss (cs.map tokenEvent)).assistantMessageId = ss.assistantMessageId ∧
    (processEvents ss (cs.map tokenEvent)).accumulatedContent =
      ss.accumulatedContent ++ cs.flatten ∧
    (((processEvents ss (cs.map tokenEvent)).assistantMessageCreated = false ∧
        ss.accumulatedContent ++ cs.flatten = [] ∧
        (processEvents ss (cs.map tokenEvent)).chat.messages = M0) ∨
     ((processEvents ss (cs.map tokenEvent)).assistantMessageCreated = true ∧
        (processEvents ss (cs.map tokenEvent)).chat.messages =
          M0 ++ [plainAsst ss.assistantMessageId (ss.accumulatedContent ++ cs.flatten)])) := by
  induction cs with
  | nil =>
    intro ss M0 hfresh hshape hclean
    simp only [List.map_nil, processEvents_nil, List.flatten_nil, List.append_nil]
    refine ⟨trivial, trivial, ?_⟩
    rcases hshape with ⟨h1, h2, h3⟩ | ⟨h1, h3⟩
    · exact Or.inl ⟨h1, h2, h3⟩
    · exact Or.inr ⟨h1, h3⟩
  | cons c cs ih =>
    intro ss M0 hfresh hshape hclean
    rw [List.map_cons, processEvents_cons, processEvent_tokenEvent]
    by_cases hc : c = []
    · subst hc
      rw [if_pos rfl]
      simp only [Bool.false_eq_true, if_false]
      have hclean2 : noTag (ss.accumulatedContent ++ cs.flatten) := by
        rw [List.flatten_cons, List.nil_append] at hclean
        exact hclean
      have hres := ih ss M0 hfresh hshape hclean2
      simp only [List.flatten_cons, List.nil_append]
      exact hres
    · rw [if_neg hc]
      simp only [Bool.false_eq_true, if_false]
      have hpfx : (ss.accumulatedContent ++ c) <+: (ss.accumulatedContent ++ (c :: cs).flatten) := by
        rw [List.flatten_cons, ← List.append_assoc]
        exact List.prefix_append _ _
      have hnt : noTag (ss.accumulatedContent ++ c) := noTag_of_prefix hpfx hclean
      have hclean3 : noTag ((ss.accumulatedContent ++ c) ++ cs.flatten) := by
        rw [List.append_assoc, ← List.flatten_cons]
        exact hclean
      rcases hshape with ⟨h1, h2, h3⟩ | ⟨h1, h3⟩
      · rw [tokenStep_clean_fresh ss c M0 hnt h1 h3 hfresh]
        have hres := ih
          { chat := { ss.chat with
              messages := M0 ++ [plainAsst ss.assistantMessageId (ss.accumulatedContent ++ c)],
              isLoading := false },
            accumulatedContent := ss.accumulatedContent ++ c,
            assistantMessageCreated := true,
            assistantMessageId := ss.assistantMessageId,
            ctrl := ss.ctrl } M0 hfresh (Or.inr ⟨rfl, rfl⟩) hclean3
        dsimp only at hres ⊢
        refine ⟨hres.1, ?_, ?_⟩
        · rw [hres.2.1, List.flatten_cons, List.append_assoc]
        · have hres2 := hres.2.2.resolve_left (by
            rintro ⟨hA, hB, hC⟩
            exact hc (List.append_eq_nil.mp (List.append_eq_nil.mp hB).1).2)
          refine Or.inr ⟨hres2.1, ?_⟩
          rw [hres2.2.trans ?_]
          rw [List.flatten_cons, List.append_assoc]
      · rw [tokenStep_clean_created ss c M0 (plainAsst ss.assistantMessageId ss.accumulatedContent)
              hnt h1 h3 rfl hfresh]
        have hres := ih
          { chat := { ss.chat with
              messages := M0 ++
                [{ plainAsst ss.assistantMessageId ss.accumulatedContent with
                    content := ss.accumulatedContent ++ c }] },
            accumulatedContent := ss.accumulatedContent ++ c,
            assistantMessageCreated := true,
            assistantMessageId := ss.assistantMessageId,
            ctrl := ss.ctrl } M0 hfresh (Or.inr ⟨rfl, rfl⟩) hclean3
        dsimp only at hres ⊢
        refine ⟨hres.1, ?_, ?_⟩
        · rw [hres.2.1, List.flatten_cons, List.append_assoc]
        · have hres2 := hres.2.2.resolve_left (by
            rintro ⟨hA, hB, hC⟩
            exact hc (List.append_eq_nil.mp (List.append_eq_nil.mp hB).1).2)
          refine Or.inr ⟨hres2.1, ?_⟩
          rw [hres2.2.trans ?_]
          rw [List.flatten_cons, List.append_assoc]

/-- processLines steps through the head line. -/
theorem processLines_cons (ss : SessionState) (l : Str) (ls : List Str) :
    processLines ss (l :: ls) =
      (if (processLine ss l).2 then (processLine ss l).1
       else processLines (processLine ss l).1 ls) := rfl

/-- jsOrV keeps a truthy left operand. -/
theorem jsOrV_of_truthy (x : Option Json) (b : Json) (h : jsTruthy x = true) :
    some (jsOrV x b) = x := by
  cases x with
  | none => exact absurd h (by simp [jsTruthy])
  | some v =>
    show some (if jsTruthyV v = true then v else b) = some v
    rw [show jsTruthyV v = true from h]
    simp

/-- jsOrV falls back to the right operand on a falsy left operand. -/
theorem jsOrV_of_falsy (x : Option Json) (b : Json) (h : jsTruthy x = false) :
    jsOrV x b = b := by
  cases x with
  | none => rfl
  | some v =>
    show (if jsTruthyV v = true then v else b) = b
    rw [show jsTruthyV v = false from h]
    simp

/-!
Claim theorems.  Concrete inputs reused by counterexamples and witnesses.
-/

/-- artTok1 is one token carrying a complete well-formed workflow artifact
span. -/
def artTok1 : Str := str "<artifact type=\"workflow\">\x7b\"name\":\"W\",\"nodes\":[]\x7d</artifact>"

/-- artBad is one token carrying a complete artifact span whose body is not
valid JSON. -/
def artBad : Str := str "<artifact type=\"workflow\">oops</artifact>"

/-- badLine is an SSE record line whose payload is not valid JSON. -/
def badLine : Str := str "data: \x7bbad json"

/-- goodLine is an SSE record line carrying a valid token event with content
hi. -/
def goodLine : Str := str "data: \x7b\"type\":\"token\",\"content\":\"hi\"\x7d"

/-- C7: processing a record line whose payload is not valid JSON leaves the
session completely unchanged and does not terminate it (the parse failure is
caught, logged and skipped), and the processing of all subsequent records is
exactly as if the malformed record had never arrived — in particular a
subsequent valid token record is still reflected in the transcript. -/
theorem c7_malformed_record_skipped (ss : SessionState) (line : Str)
    (h1 : (str "data: ").isPrefixOf line = true)
    (h2 : Json.parse (trimStr (line.drop 6)) = none) :
    processLine ss line = (ss, false) ∧
    ∀ ls : List Str, processLines ss (line :: ls) = processLines ss ls := by
  have hpl : processLine ss line = (ss, false) := by
    unfold processLine
    rw [h1]
    simp only [if_true]
    by_cases hj : trimStr (line.drop 6) = []
    · rw [if_pos hj]
    · rw [if_neg hj, h2]
  refine ⟨hpl, fun ls => ?_⟩
  rw [processLines_cons, hpl]
  simp

/-- c7_witness instantiates C7 at the malformed line and checks that a valid
token line following it is still reflected in the transcript text. -/
theorem c7_witness :
    processLine sess0 badLine = (sess0, false) ∧
    (processLines sess0 [badLine, goodLine]).chat.messages.map Message.content =
      [str "q", str "hi"] := by
  refine ⟨(c7_malformed_record_skipped sess0 badLine rfl rfl).1, ?_⟩
  rw [(c7_malformed_record_skipped sess0 badLine rfl rfl).2 [goodLine]]
  rfl

/-- C10: a token event whose content field is absent or the empty string is
skipped by the truthiness guard of the token branch: the session state, and
with it the transcript, is completely unchanged and the session is not
terminated. -/
theorem c10_empty_token_no_effect (ss : SessionState) (j : Json)
    (h1 : j.getField (str "type") = some (Json.str (str "token")))
    (h2 : j.getField (str "content") = none ∨ j.getField (str "content") = some (Json.str [])) :
    processEvent ss j = (ss, false) := by
  simp only [processEvent]
  rw [h1]
  rw [if_neg (by decide : ¬ jsStrictEq (some (Json.str (str "token"))) (some (Json.str (str "tool_call"))) = true)]
  rw [if_neg (by decide : ¬ jsStrictEq (some (Json.str (str "token"))) (some (Json.str (str "tool_result"))) = true)]
  rcases h2 with h2 | h2 <;> rw [h2] <;>
    rw [if_neg (by decide)] <;>
    rw [if_neg (by decide : ¬ jsStrictEq (some (Json.str (str "token"))) (some (Json.str (str "complete"))) = true)] <;>
    rw [if_neg (by decide : ¬ jsStrictEq (some (Json.str (str "token"))) (some (Json.str (str "error"))) = true)]

/-- c10_witness instantiates C10 at a token record with no content field. -/
theorem c10_witness :
    processEvent sess0 (Json.obj [(str "type", Json.str (str "token"))]) = (sess0, false) :=
  c10_empty_token_no_effect sess0 (Json.obj [(str "type", Json.str (str "token"))]) rfl (Or.inl rfl)

/-- C2 (amended): cancelling before any event has been processed does not
leave the transcript as it was — the catch branch appends exactly one new
empty assistant turn after the user turn, because assistantMessageCreated is
still false when the AbortError arrives. -/
theorem c2_cancel_before_events_appends_empty_turn (s : ChatState) (content : Str) (base : Nat)
    (h : trimStr content ≠ []) :
    (cancelBeforeEvents s content base).messages =
      s.messages ++
        [{ id := base, content := trimStr content, role := Role.user,
           toolCalls := none, artifact := none },
         { id := base + 1, content := [], role := Role.assistant,
           toolCalls := none, artifact := none }] := by
  unfold cancelBeforeEvents sendStart
  rw [if_neg h]
  unfold handleStopGeneration abortCatch
  dsimp only
  rw [List.append_assoc]
  rfl

/-- c2_witness instantiates the amended C2 on a fresh chat. -/
theorem c2_witness :
    (cancelBeforeEvents chatInit (str "hi") 0).messages =
      chatInit.messages ++
        [{ id := 0, content := trimStr (str "hi"), role := Role.user,
           toolCalls := none, artifact := none },
         { id := 1, content := [], role := Role.assistant,
           toolCalls := none, artifact := none }] :=
  c2_cancel_before_events_appends_empty_turn chatInit (str "hi") 0 (by decide)

/-- c2_counterexample: on an empty transcript, sending hi and cancelling
before any event yields a transcript holding a new assistant turn (the empty
one appended by the catch branch), refuting the claim that the transcript
gains no new assistant turn. -/
theorem c2_counterexample :
    (cancelBeforeEvents chatInit (str "hi") 0).messages =
      [{ id := 0, content := str "hi", role := Role.user, toolCalls := none, artifact := none },
       { id := 1, content := [], role := Role.assistant, toolCalls := none, artifact := none }] ∧
    ((cancelBeforeEvents chatInit (str "hi") 0).messages.filter
        (fun m => decide (m.role = Role.assistant))).length = 1 := ⟨rfl, rfl⟩

/-- C3 (amended): handleSendMessage never aborts the previous session when a
new send starts — the new AbortController simply replaces the old reference,
and the aborted set is untouched; concurrent sessions are instead prevented
one level up, by the ChatInput submit guard, which refuses to forward a send
while isLoading or isStreaming is set. -/
theorem c3_no_abort_on_new_send (s : ChatState) (content : Str) (base : Nat) :
    ((s.isStreaming = true ∨ s.isLoading = true) → handleSubmit s content base = s) ∧
    (∀ ss : SessionState, sendStart s content base = some ss →
      ss.chat.aborted = s.aborted ∧ ss.chat.abortController = some s.ctr) := by
  constructor
  · intro h
    unfold handleSubmit
    rw [if_neg ?_]
    rintro ⟨-, hL, hS⟩
    rcases h with h | h
    · rw [h] at hS
      exact Bool.noConfusion hS
    · rw [h] at hL
      exact Bool.noConfusion hL
  · intro ss hss
    unfold sendStart at hss
    by_cases ht : trimStr content = []
    · rw [if_pos ht] at hss
      exact absurd hss (by simp)
    · rw [if_neg ht] at hss
      injection hss with hss
      subst hss
      exact ⟨rfl, rfl⟩

/-- sActive is a chat state with a stream in flight: controller 0 is live,
nothing aborted yet. -/
def sActive : ChatState :=
  { messages := [user0], isLoading := false, isStreaming := true, abortController := some 0,
    aborted := [], ctr := 1, idCtr := 0, currentArtifact := none, isArtifactVisible := false }

/-- c3_counterexample: starting a send directly while controller 0 is still
in flight creates the new request (controller 1 installed) with the aborted
set still empty — the abort signal of the previous session was not triggered
before the request of the new session was created, refuting the claim. -/
theorem c3_counterexample :
    (sendStart sActive (str "again") 10).map
        (fun ss => (ss.chat.aborted, ss.chat.abortController)) =
      some ([], some 1) := rfl

/-- c3_witness instantiates the amended C3 on the in-flight state: the
submit guard swallows the send, and a direct send leaves the aborted set
unchanged. -/
theorem c3_witness :
    handleSubmit sActive (str "again") 10 = sActive ∧
    ((sendStart sActive (str "again") 10).getD sess0).chat.aborted = sActive.aborted := by
  constructor
  · exact (c3_no_abort_on_new_send sActive (str "again") 10).1 (Or.inl rfl)
  · exact ((c3_no_abort_on_new_send sActive (str "again") 10).2 _ rfl).1

/-- c1DoneTool is an already-resolved invocation of tool t with result r1. -/
def c1DoneTool : ToolCall :=
  { id := some (Json.str (str "i1")), name := some (Json.str (str "t")),
    args := some (Json.obj []), result := some (Json.str (str "r1")), isLoading := false }

/-- c1PendTool is a pending invocation of the same tool t. -/
def c1PendTool : ToolCall :=
  { id := some (Json.str (str "i2")), name := some (Json.str (str "t")),
    args := some (Json.obj []), result := none, isLoading := true }

/-- c1wMsg is an assistant turn holding a resolved and a pending invocation
of the same tool name. -/
def c1wMsg : Message :=
  { id := 1, content := [], role := Role.assistant,
    toolCalls := some [c1DoneTool, c1PendTool], artifact := none }

/-- c1wSess is a session whose assistant turn is c1wMsg. -/
def c1wSess : SessionState :=
  { chat :=
      { messages := [user0, c1wMsg], isLoading := false, isStreaming := true,
        abortController := some 0, aborted := [], ctr := 1, idCtr := 0,
        currentArtifact := none, isArtifactVisible := false },
    accumulatedContent := [], assistantMessageCreated := true,
    assistantMessageId := 1, ctrl := 0 }

/-- C1 (amended): a tool_result event does not resolve only the most
recently opened pending invocation with the matching name — the handler maps
over every tool call of the assistant turn and every invocation whose name
strictly equals the event name, pending or already resolved, receives the
new result content and is marked done; only invocations with a different
name are left unchanged. -/
theorem c1_tool_result_updates_every_match (ss : SessionState) (n c : Str)
    (M0 : List Message) (m : Message)
    (h3 : ss.chat.messages = M0 ++ [m])
    (hm : m.id = ss.assistantMessageId)
    (hfresh : ∀ x ∈ M0, x.id ≠ ss.assistantMessageId) :
    (processEvent ss (toolResultEvent n c)).1.chat.messages =
      M0 ++ [{ m with toolCalls := m.toolCalls.map (fun ts =>
        ts.map (resUpd (some (Json.str n)) (some (Json.str c)))) }] ∧
    (processEvent ss (toolResultEvent n c)).2 = false ∧
    (∀ tool : ToolCall, tool.name = some (Json.str n) →
      resUpd (some (Json.str n)) (some (Json.str c)) tool =
        { tool with result := some (Json.str c), isLoading := false }) ∧
    (∀ tool : ToolCall, jsStrictEq tool.name (some (Json.str n)) = false →
      resUpd (some (Json.str n)) (some (Json.str c)) tool = tool) := by
  refine ⟨?_, rfl, ?_, ?_⟩
  · rw [processEvent_toolResultEvent]
    dsimp only
    rw [toolResultStep_shape ss (toolResultEvent n c) M0 m h3 hm hfresh]
    dsimp only
    rw [toolResultEvent_name, toolResultEvent_content]
  · intro tool ht
    unfold resUpd
    rw [ht]
    simp [jsStrictEq]
  · intro tool hf
    unfold resUpd
    rw [hf]
    simp

/-- c1_witness instantiates the amended C1 on a turn holding a resolved and
a pending invocation of tool t: both receive the new result r2. -/
theorem c1_witness :
    (processEvent c1wSess (toolResultEvent (str "t") (str "r2"))).1.chat.messages =
      [user0,
       { id := 1, content := [], role := Role.assistant,
         toolCalls := some
           [{ c1DoneTool with result := some (Json.str (str "r2")), isLoading := false },
            { c1PendTool with result := some (Json.str (str "r2")), isLoading := false }],
         artifact := none }] :=
  ((c1_tool_result_updates_every_match c1wSess (str "t") (str "r2") [user0] c1wMsg rfl rfl
      (fun x hx => by rw [List.mem_singleton] at hx; subst hx; decide)).1).trans rfl

/-- c1_counterexample: in a full run two same-named invocations are opened;
the first is resolved with r1; processing the second tool_result with r2
overwrites the already-resolved older invocation too, so its result is r2
and not the r1 the claim says it keeps. -/
theorem c1_counterexample :
    ((processEvents sess0
        [toolCallEvent (str "i1") (str "t"), toolResultEvent (str "t") (str "r1"),
         toolCallEvent (str "i2") (str "t"), toolResultEvent (str "t") (str "r2")]).chat.messages =
      [user0,
       { id := 1, content := [], role := Role.assistant,
         toolCalls := some
           [{ id := some (Json.str (str "i1")), name := some (Json.str (str "t")),
              args := some (Json.obj []), result := some (Json.str (str "r2")), isLoading := false },
            { id := some (Json.str (str "i2")), name := some (Json.str (str "t")),
              args := some (Json.obj []), result := some (Json.str (str "r2")), isLoading := false }],
         artifact := none }]) ∧
    str "r2" ≠ str "r1" := ⟨rfl, by decide⟩

/-- C5 (amended): for a run of token events with no intervening tool_call,
the assistant turn holds exactly one text unit equal to the concatenation of
the token contents, provided the concatenation contains no artifact markup
(no artifact open or close tag fragment in any letter case); when such
markup is present the displayed text is rewritten and can differ from the
concatenation. -/
theorem c5_coalescing_without_markup (cs : List Str)
    (h1 : noTag cs.flatten) (h2 : cs.flatten ≠ []) :
    (processEvents sess0 (cs.map tokenEvent)).chat.messages =
      [user0, plainAsst 1 cs.flatten] := by
  have hclean : noTag (sess0.accumulatedContent ++ cs.flatten) := by
    rw [show sess0.accumulatedContent = ([] : Str) from rfl, List.nil_append]
    exact h1
  have hres := processEvents_tokens cs sess0 [user0]
    (fun x hx => by rw [List.mem_singleton] at hx; subst hx; decide)
    (Or.inl ⟨rfl, rfl, rfl⟩) hclean
  rcases hres.2.2 with ⟨hA, hB, hC⟩ | ⟨hA, hB⟩
  · rw [show sess0.accumulatedContent = ([] : Str) from rfl, List.nil_append] at hB
    exact absurd hB h2
  · rw [hB]
    rfl

/-- c5_witness instantiates the amended C5 on two plain tokens. -/
theorem c5_witness :
    (processEvents sess0 ([str "he", str "llo"].map tokenEvent)).chat.messages =
      [user0, plainAsst 1 ([str "he", str "llo"] : List Str).flatten] :=
  c5_coalescing_without_markup [str "he", str "llo"] (by decide) (by decide)

/-- c5_counterexample: a single token whose content is the artifact open
fragment yields a turn whose only text unit is empty — not the concatenation
of the token contents — because the display strips from the open tag
onward. -/
theorem c5_counterexample :
    ((processEvents sess0 [tokenEvent (str "<artifact")]).chat.messages.map Message.content =
      [str "q", []]) ∧
    str "<artifact" ≠ [] := ⟨rfl, by decide⟩

/-- C6 (amended): a tool_call between two token runs does not yield three or
more ordered sub-events — the Message type of ChatInterface has no event
sequence at all.  The text of both runs is merged into the single content
string (the concatenation of the two runs), and the invocation sits in the
separate toolCalls list. -/
theorem c6_text_runs_merge_across_tool_call (a b i n : Str)
    (ha : a ≠ []) (hb : b ≠ []) (h : noTag (a ++ b)) :
    (processEvents sess0 [tokenEvent a, toolCallEvent i n, tokenEvent b]).chat.messages =
      [user0,
       { id := 1, content := a ++ b, role := Role.assistant,
         toolCalls := some [mkToolCall (toolCallEvent i n)], artifact := none }] := by
  have hna : noTag a := noTag_of_prefix (List.prefix_append a b) h
  rw [processEvents_cons, processEvent_tokenEvent, if_neg ha]
  simp only [Bool.false_eq_true, if_false]
  rw [tokenStep_clean_fresh sess0 a [user0]
        (by rw [show sess0.accumulatedContent = ([] : Str) from rfl, List.nil_append]; exact hna)
        rfl rfl (fun x hx => by rw [List.mem_singleton] at hx; subst hx; decide)]
  rw [processEvents_cons, processEvent_toolCallEvent]
  dsimp only
  rw [toolCallStep_created _ (toolCallEvent i n) [user0] _ rfl rfl rfl
        (fun x hx => by rw [List.mem_singleton] at hx; subst hx; exact Nat.zero_ne_one)]
  rw [processEvents_cons, processEvent_tokenEvent, if_neg hb]
  simp only [Bool.false_eq_true, if_false]
  rw [tokenStep_clean_created _ b [user0] _ (by exact h) rfl rfl rfl
        (fun x hx => by rw [List.mem_singleton] at hx; subst hx; exact Nat.zero_ne_one)]
  rfl

/-- c6_witness instantiates the amended C6 on token x, a tool call, token y:
the turn text is the merged xy. -/
theorem c6_witness :
    (processEvents sess0
        [tokenEvent (str "x"), toolCallEvent (str "i1") (str "t"), tokenEvent (str "y")]).chat.messages =
      [user0,
       { id := 1, content := str "x" ++ str "y", role := Role.assistant,
         toolCalls := some [mkToolCall (toolCallEvent (str "i1") (str "t"))], artifact := none }] :=
  c6_text_runs_merge_across_tool_call (str "x") (str "y") (str "i1") (str "t")
    (by decide) (by decide) (by decide)

/-- c6_counterexample: processing token a, a tool_call, token b yields a
turn whose entire text is the single merged string ab next to a one-element
toolCalls list — there are no three ordered sub-events, and the text
produced before the tool call has been merged with the text produced after
it, refuting the claim. -/
theorem c6_counterexample :
    ((processEvents sess0
        [tokenEvent (str "a"), toolCallEvent (str "i1") (str "t"), tokenEvent (str "b")]).chat.messages.map
      (fun m => (m.content, m.toolCalls.map List.length))) =
      [(str "q", none), (str "ab", some 1)] := rfl

/-- C4 (amended): when a complete tagged artifact block is recognized in a
turn that already materialized an artifact, the handler does not append a
version to that artifact — it builds a brand-new artifact object with a
fresh identifier (the current id counter, which the id of the previous artifact
is below) holding a single-element versions list, and replaces the artifact
reference of the turn and the active artifact with it. -/
theorem c4_completion_creates_fresh_singleton_artifact (ss : SessionState) (c : Str)
    (M0 : List Message) (m : Message) (a0 : ArtifactData)
    (hcr : ss.assistantMessageCreated = true)
    (h3 : ss.chat.messages = M0 ++ [m])
    (hm : m.id = ss.assistantMessageId)
    (hfresh : ∀ x ∈ M0, x.id ≠ ss.assistantMessageId)
    (h5 : includesStr (ss.accumulatedContent ++ c) (str "</artifact>") = true)
    (h6 : (jsTruthy (parseArtifactFromStream (ss.accumulatedContent ++ c)).type &&
           jsTruthy (parseArtifactFromStream (ss.accumulatedContent ++ c)).data) = true)
    (ha0 : m.artifact = some a0)
    (hlt : a0.id < ss.chat.idCtr) :
    (tokenStep ss c).chat.messages =
      M0 ++ [{ m with
        content := trimStr (stripTaggedSpans (ss.accumulatedContent ++ c)),
        artifact := some (mkFullArtifact (parseArtifactFromStream (ss.accumulatedContent ++ c))
          ss.chat.idCtr) }] ∧
    (tokenStep ss c).chat.currentArtifact =
      some (mkFullArtifact (parseArtifactFromStream (ss.accumulatedContent ++ c)) ss.chat.idCtr) ∧
    (tokenStep ss c).chat.idCtr = ss.chat.idCtr + 2 ∧
    (mkFullArtifact (parseArtifactFromStream (ss.accumulatedContent ++ c)) ss.chat.idCtr).versions =
      [(mkFullArtifact (parseArtifactFromStream (ss.accumulatedContent ++ c)) ss.chat.idCtr).currentVersion] ∧
    (mkFullArtifact (parseArtifactFromStream (ss.accumulatedContent ++ c)) ss.chat.idCtr).id ≠ a0.id := by
  unfold tokenStep
  rw [hcr, h3]
  simp only [if_true, h5, h6, eq_self_iff_true]
  rw [updAsst_append_fresh M0 m _ _ hfresh hm]
  rw [updAsst_append_fresh M0 { m with content := ss.accumulatedContent ++ c } _ _ hfresh hm]
  exact ⟨by trivial, by trivial, by trivial, by trivial, (Nat.ne_of_lt hlt).symm⟩

/-- c4wArtifact is the artifact materialized by the first completion. -/
def c4wArtifact : ArtifactData := mkFullArtifact (parseArtifactFromStream artTok1) 0

/-- c4wMsg is the assistant turn after the first completion. -/
def c4wMsg : Message :=
  { id := 1, content := trimStr (stripTaggedSpans artTok1), role := Role.assistant,
    toolCalls := none, artifact := some c4wArtifact }

/-- c4wSess is the session after the first completion (two ids consumed). -/
def c4wSess : SessionState :=
  { chat :=
      { messages := [user0, c4wMsg], isLoading := false, isStreaming := true,
        abortController := some 0, aborted := [], ctr := 1, idCtr := 2,
        currentArtifact := some c4wArtifact, isArtifactVisible := true },
    accumulatedContent := artTok1, assistantMessageCreated := true,
    assistantMessageId := 1, ctrl := 0 }

/-- c4_witness instantiates the amended C4 on the post-completion session:
the next completion installs a fresh single-version artifact whose id
differs from the existing one. -/
theorem c4_witness :
    (tokenStep c4wSess (str "x")).chat.currentArtifact =
      some (mkFullArtifact (parseArtifactFromStream (c4wSess.accumulatedContent ++ str "x"))
        c4wSess.chat.idCtr) ∧
    (mkFullArtifact (parseArtifactFromStream (c4wSess.accumulatedContent ++ str "x"))
        c4wSess.chat.idCtr).versions =
      [(mkFullArtifact (parseArtifactFromStream (c4wSess.accumulatedContent ++ str "x"))
          c4wSess.chat.idCtr).currentVersion] ∧
    (mkFullArtifact (parseArtifactFromStream (c4wSess.accumulatedContent ++ str "x"))
        c4wSess.chat.idCtr).id ≠ c4wArtifact.id := by
  have h := c4_completion_creates_fresh_singleton_artifact c4wSess (str "x") [user0] c4wMsg
    c4wArtifact rfl rfl rfl
    (fun x hx => by rw [List.mem_singleton] at hx; subst hx; decide)
    rfl rfl rfl (by decide)
  exact ⟨h.2.1, h.2.2.2.1, h.2.2.2.2⟩

/-- c4_counterexample: the first completion creates artifact id 0 with one
version; after a second token the same span is re-parsed and a second
artifact object with the fresh id 2 and again exactly one version replaces
it — the versions sequence did not grow and the identifier is not the same,
refuting the claim. -/
theorem c4_counterexample :
    ((processEvents sess0 [tokenEvent artTok1]).chat.messages.map
        (fun m => m.artifact.map (fun a => (a.id, a.versions.length)))) = [none, some (0, 1)] ∧
    ((processEvents sess0 [tokenEvent artTok1, tokenEvent (str "x")]).chat.messages.map
        (fun m => m.artifact.map (fun a => (a.id, a.versions.length)))) = [none, some (2, 1)] ∧
    (2 : Nat) ≠ 0 ∧ (1 : Nat) ≠ 2 := ⟨rfl, rfl, by decide, by decide⟩

/-- C8 (amended): when the accumulated text holds a complete artifact span
whose body fails to parse, no artifact is created and no turn-level error is
raised, but the span is not removed from the displayed text — the message
keeps the raw accumulated text, tags included. -/
theorem c8_failed_parse_keeps_raw_span (ss : SessionState) (c : Str)
    (M0 : List Message) (m : Message)
    (hcr : ss.assistantMessageCreated = true)
    (h3 : ss.chat.messages = M0 ++ [m])
    (hm : m.id = ss.assistantMessageId)
    (hfresh : ∀ x ∈ M0, x.id ≠ ss.assistantMessageId)
    (h5 : includesStr (ss.accumulatedContent ++ c) (str "</artifact>") = true)
    (h6 : (jsTruthy (parseArtifactFromStream (ss.accumulatedContent ++ c)).type &&
           jsTruthy (parseArtifactFromStream (ss.accumulatedContent ++ c)).data) = false) :
    (tokenStep ss c).chat.messages = M0 ++ [{ m with content := ss.accumulatedContent ++ c }] ∧
    (tokenStep ss c).chat.currentArtifact = ss.chat.currentArtifact ∧
    (tokenStep ss c).chat.messages.length = ss.chat.messages.length := by
  unfold tokenStep
  rw [hcr, h3]
  simp only [if_true, h5, h6, eq_self_iff_true, Bool.false_eq_true, if_false]
  rw [updAsst_append_fresh M0 m _ _ hfresh hm]
  refine ⟨by trivial, by trivial, ?_⟩
  simp

/-- c8wSess is a session whose assistant turn exists and is still empty. -/
def c8wSess : SessionState :=
  { chat :=
      { messages := [user0, plainAsst 1 []], isLoading := false, isStreaming := true,
        abortController := some 0, aborted := [], ctr := 1, idCtr := 0,
        currentArtifact := none, isArtifactVisible := false },
    accumulatedContent := [], assistantMessageCreated := true,
    assistantMessageId := 1, ctrl := 0 }

/-- c8_witness instantiates the amended C8 on a token carrying a complete
span with an unparsable body. -/
theorem c8_witness :
    (tokenStep c8wSess artBad).chat.messages =
      [user0] ++ [{ plainAsst 1 [] with content := c8wSess.accumulatedContent ++ artBad }] ∧
    (tokenStep c8wSess artBad).chat.currentArtifact = c8wSess.chat.currentArtifact :=
  ⟨(c8_failed_parse_keeps_raw_span c8wSess artBad [user0] (plainAsst 1 []) rfl rfl rfl
      (fun x hx => by rw [List.mem_singleton] at hx; subst hx; decide) rfl rfl).1,
   (c8_failed_parse_keeps_raw_span c8wSess artBad [user0] (plainAsst 1 []) rfl rfl rfl
      (fun x hx => by rw [List.mem_singleton] at hx; subst hx; decide) rfl rfl).2.1⟩

/-- c8_counterexample: after a token carrying a complete span with an
unparsable body, the displayed turn text is the raw accumulated string — it
still contains the artifact open tag — while no artifact exists; the span
was not dropped from display, refuting the claim. -/
theorem c8_counterexample :
    ((processEvents sess0 [tokenEvent artBad]).chat.messages.map
        (fun m => (m.content, m.artifact.isSome))) = [(str "q", false), (artBad, false)] ∧
    (processEvents sess0 [tokenEvent artBad]).chat.currentArtifact = none ∧
    includesStr artBad (str "<artifact") = true := ⟨rfl, rfl, rfl⟩

/-- C9 (amended): an input with no artifact tag whose trimmed form starts
with a brace, contains the quoted key nodes and parses as JSON is recognized
as a workflow artifact with the parsed object as data; the title is the
name field of the object when that field is present and truthy, and the fallback
Generated Workflow when the name is absent or falsy (for example the empty
string). -/
theorem c9_bare_json_recognized_as_workflow (s : Str) (j : Json)
    (h1 : artifactTagExec s = none)
    (h2 : startsLBrace (trimStr s) = true)
    (h3 : includesStr s (str "\"nodes\"") = true)
    (h4 : Json.parse (trimStr s) = some j) :
    (parseArtifactFromStream s).type = some (Json.str (str "workflow")) ∧
    (parseArtifactFromStream s).data = some j ∧
    (jsTruthy (j.getField (str "name")) = true →
      (parseArtifactFromStream s).title = j.getField (str "name")) ∧
    (jsTruthy (j.getField (str "name")) = false →
      (parseArtifactFromStream s).title = some (Json.str (str "Generated Workflow"))) := by
  unfold parseArtifactFromStream
  rw [h1]
  simp only [h2, h3, Bool.and_self, eq_self_iff_true, if_true]
  rw [h4]
  refine ⟨rfl, rfl, ?_, ?_⟩
  · intro ht
    exact jsOrV_of_truthy _ _ ht
  · intro hf
    show some (jsOrV (j.getField (str "name")) (Json.str (str "Generated Workflow"))) = _
    rw [jsOrV_of_falsy _ _ hf]

/-- c9wStr is bare workflow JSON with a truthy name. -/
def c9wStr : Str := str "\x7b\"name\":\"My Flow\",\"nodes\":[]\x7d"

/-- c9wJson is the parse of c9wStr. -/
def c9wJson : Json :=
  Json.obj [(str "name", Json.str (str "My Flow")), (str "nodes", Json.arr [])]

/-- c9_witness instantiates the amended C9 on bare workflow JSON with a
truthy name. -/
theorem c9_witness :
    (parseArtifactFromStream c9wStr).type = some (Json.str (str "workflow")) ∧
    (parseArtifactFromStream c9wStr).data = some c9wJson ∧
    (parseArtifactFromStream c9wStr).title = c9wJson.getField (str "name") := by
  have h := c9_bare_json_recognized_as_workflow c9wStr c9wJson rfl rfl rfl rfl
  exact ⟨h.1, h.2.1, h.2.2.1 rfl⟩

/-- c9_counterexample: on bare workflow JSON whose name field is present but
empty, the name is not absent, yet the title is the fallback Generated
Workflow rather than the (empty) name field, refuting the claim as
stated. -/
theorem c9_counterexample :
    (Json.parse (trimStr (str "\x7b\"name\":\"\",\"nodes\":[]\x7d"))).map
        (fun j => j.getField (str "name")) = some (some (Json.str [])) ∧
    (parseArtifactFromStream (str "\x7b\"name\":\"\",\"nodes\":[]\x7d")).title =
      some (Json.str (str "Generated Workflow")) ∧
    str "Generated Workflow" ≠ ([] : Str) := ⟨rfl, rfl, by decide⟩

end WPA
